import Mathlib

set_option maxRecDepth 40000

/-!
Verification development for the "Demand Spike Early Warning Agent" repository
(single source file `app_with_txt.py`, a Streamlit web app).

The Python code is shallowly embedded: Python `str` values become `List Char`,
Python functions become Lean functions, the Streamlit UI events of one button
press become a pure function from the inputs (uploaded CSV text, form fields,
the external model's response text) to a record of the emitted messages,
the constructed e-mail body, and the attempted e-mail.  External services
(the generative-model API, SMTP, pandas CSV parsing) are modelled as explicit
input parameters (the response text, an SMTP world, an `Except` parse result).

Definitions are transcribed from `app_with_txt.py`; line references are given
at each definition.
-/

namespace DemandSpike

/-! ### Python string primitives -/

/-- Blank characters stripped by Python `str.strip()` (space, tab, newline,
carriage return, vertical tab, form feed). -/
def isSpaceB (c : Char) : Bool :=
  c == ' ' || c == '\t' || c == '\n' || c == '\r' || c == Char.ofNat 11 || c == Char.ofNat 12

/-- Python `str.strip()`: remove leading and trailing blank characters. -/
def pyStrip (l : List Char) : List Char :=
  ((l.dropWhile isSpaceB).reverse.dropWhile isSpaceB).reverse

/-- Fuelled worker for Python `str.replace(pat, rep)`: replace all
non-overlapping occurrences, scanning left to right.  The fuel is an upper
bound on the number of steps; `pyReplace` supplies the list length, which
suffices because every step consumes at least one character.  (Python's
behaviour for an empty pattern, which inserts `rep` between characters, is
not modelled; the program only ever replaces non-empty patterns.) -/
def pyReplaceF (pat rep : List Char) : Nat → List Char → List Char
  | _, [] => []
  | 0, l => l
  | f+1, c :: cs =>
    if !pat.isEmpty && pat.isPrefixOf (c :: cs) then
      rep ++ pyReplaceF pat rep f ((c :: cs).drop pat.length)
    else
      c :: pyReplaceF pat rep f cs

/-- Python `str.replace(pat, rep)` for a non-empty pattern. -/
def pyReplace (pat rep l : List Char) : List Char :=
  pyReplaceF pat rep l.length l

/-- One decimal digit as a character. -/
def digitChar (n : Nat) : Char :=
  match n with
  | 0 => '0' | 1 => '1' | 2 => '2' | 3 => '3' | 4 => '4'
  | 5 => '5' | 6 => '6' | 7 => '7' | 8 => '8' | _ => '9'

/-- Fuelled decimal-digit expansion of a natural number (most significant
digit first); empty for `0`. -/
def natDigitsF : Nat → Nat → List Char
  | 0, _ => []
  | f+1, n => if n = 0 then [] else natDigitsF f (n / 10) ++ [digitChar (n % 10)]

/-- Python `str(n)` for a non-negative integer, as rendered into f-strings. -/
def pyStr (n : Nat) : List Char :=
  if n = 0 then ['0'] else natDigitsF (n + 1) n

/-- The three-backtick fence `` ``` ``. -/
def bbb : List Char := "```".toList

/-- The opening fence `` ```json ``. -/
def bjson : List Char := "```json".toList

/-- Lines 221: `response.text.strip().replace("```json", "").replace("```", "")`. -/
def fenceStrip (t : List Char) : List Char :=
  pyReplace bbb [] (pyReplace bjson [] (pyStrip t))

/-! ### JSON values and `json.loads`

`json.loads` of the Python standard library is embedded as a fuelled
recursive-descent parser over `List Char`.  Numbers keep their literal
characters (their numeric interpretation is never needed by the program
beyond truthiness); strings are unescaped (`\uXXXX` maps to the single code
point, surrogate pairs are not combined). -/

inductive Json where
  | null : Json
  | jbool : Bool → Json
  | jnum : List Char → Json
  | jstr : List Char → Json
  | jarr : List Json → Json
  | jobj : List (List Char × Json) → Json

/-- The `\x7b` character. -/
def lbrace : Char := Char.ofNat 123

/-- The `\x7d` character. -/
def rbrace : Char := Char.ofNat 125

/-- JSON insignificant whitespace. -/
def isJsonWs (c : Char) : Bool := c == ' ' || c == '\t' || c == '\n' || c == '\r'

/-- Skip insignificant whitespace. -/
def skipWs (l : List Char) : List Char := l.dropWhile isJsonWs

/-- Hexadecimal digit value. -/
def hexVal (c : Char) : Option Nat :=
  if 48 ≤ c.toNat && c.toNat ≤ 57 then some (c.toNat - 48)
  else if 97 ≤ c.toNat && c.toNat ≤ 102 then some (c.toNat - 87)
  else if 65 ≤ c.toNat && c.toNat ≤ 70 then some (c.toNat - 55)
  else none

/-- Single-character JSON string escapes (the table of `json.decoder`,
minus `u`). -/
def escChar : Char → Option Char
  | 't' => some '\t'
  | 'n' => some '\n'
  | 'r' => some '\r'
  | 'b' => some (Char.ofNat 8)
  | 'f' => some (Char.ofNat 12)
  | '/' => some '/'
  | '"' => some '"'
  | '\\' => some '\\'
  | _ => none

/-- Parse the body of a JSON string after the opening quote; returns the
decoded characters and the remaining input after the closing quote. -/
def parseStr : Nat → List Char → Option (List Char × List Char)
  | 0, _ => none
  | _+1, [] => none
  | f+1, c :: rest =>
    if c == '"' then some ([], rest)
    else if c == '\\' then
      match rest with
      | [] => none
      | e :: rest2 =>
        if e == 'u' then
          match rest2 with
          | h1 :: h2 :: h3 :: h4 :: rest3 =>
            match hexVal h1, hexVal h2, hexVal h3, hexVal h4 with
            | some a, some b, some c2, some d =>
              match parseStr f rest3 with
              | some (s, r) => some (Char.ofNat (4096*a + 256*b + 16*c2 + d) :: s, r)
              | none => none
            | _, _, _, _ => none
          | _ => none
        else
          match escChar e with
          | some ec =>
            match parseStr f rest2 with
            | some (s, r) => some (ec :: s, r)
            | none => none
          | none => none
    else if c.toNat < 32 then none
    else
      match parseStr f rest with
      | some (s, r) => some (c :: s, r)
      | none => none

/-- Decimal digit test. -/
def isDigitB (c : Char) : Bool := 48 ≤ c.toNat && c.toNat ≤ 57

/-- One or more decimal digits. -/
def digits1 (l : List Char) : Option (List Char × List Char) :=
  match l.span isDigitB with
  | (ds, r) => if ds.isEmpty then none else some (ds, r)

/-- JSON integer part: `0`, or a nonzero digit followed by digits. -/
def parseIntPart : List Char → Option (List Char × List Char)
  | [] => none
  | c :: rest =>
    if c == '0' then some (['0'], rest)
    else if isDigitB c then digits1 (c :: rest)
    else none

/-- Optional JSON fraction part. -/
def parseFrac (l : List Char) : Option (List Char × List Char) :=
  match l with
  | '.' :: rest =>
    match digits1 rest with
    | some (ds, r) => some ('.' :: ds, r)
    | none => none
  | _ => some ([], l)

/-- Optional JSON exponent part. -/
def parseExp (l : List Char) : Option (List Char × List Char) :=
  match l with
  | [] => some ([], l)
  | c :: rest =>
    if c == 'e' || c == 'E' then
      match rest with
      | [] => none
      | s :: rest2 =>
        if s == '+' || s == '-' then
          match digits1 rest2 with
          | some (ds, r) => some (c :: s :: ds, r)
          | none => none
        else
          match digits1 rest with
          | some (ds, r) => some (c :: ds, r)
          | none => none
    else some ([], l)

/-- A JSON number literal (sign, integer part, fraction, exponent),
returned as its literal characters. -/
def parseNum (l : List Char) : Option (List Char × List Char) :=
  let (sgn, l1) :=
    match l with
    | '-' :: r => ((['-'] : List Char), r)
    | _ => (([] : List Char), l)
  match parseIntPart l1 with
  | none => none
  | some (ip, r1) =>
    match parseFrac r1 with
    | none => none
    | some (fp, r2) =>
      match parseExp r2 with
      | none => none
      | some (ep, r3) => some (sgn ++ ip ++ fp ++ ep, r3)

/-- Consume an expected literal. -/
def afterLit (pat l : List Char) : Option (List Char) :=
  if pat.isPrefixOf l then some (l.drop pat.length) else none

mutual

/-- Parse one JSON value (fuelled; the fuel only bounds nesting of the
mutual recursion, `json_loads` supplies an ample amount). -/
def parseVal : Nat → List Char → Option (Json × List Char)
  | 0, _ => none
  | f+1, l =>
    match skipWs l with
    | [] => none
    | c :: rest =>
      if c == '"' then
        match parseStr (rest.length + 1) rest with
        | some (s, r) => some (Json.jstr s, r)
        | none => none
      else if c == '[' then
        match skipWs rest with
        | ']' :: r2 => some (Json.jarr [], r2)
        | _ =>
          match parseArrItems f rest with
          | some (xs, r) => some (Json.jarr xs, r)
          | none => none
      else if c == lbrace then
        match skipWs rest with
        | [] => none
        | c2 :: r2 =>
          if c2 == rbrace then some (Json.jobj [], r2)
          else
            match parseObjItems f (c2 :: r2) with
            | some (kvs, r) => some (Json.jobj kvs, r)
            | none => none
      else if c == 't' then
        match afterLit ("rue".toList) rest with
        | some r => some (Json.jbool true, r)
        | none => none
      else if c == 'f' then
        match afterLit ("alse".toList) rest with
        | some r => some (Json.jbool false, r)
        | none => none
      else if c == 'n' then
        match afterLit ("ull".toList) rest with
        | some r => some (Json.null, r)
        | none => none
      else if c == 'N' then
        match afterLit ("aN".toList) rest with
        | some r => some (Json.jnum ("NaN".toList), r)
        | none => none
      else if c == 'I' then
        match afterLit ("nfinity".toList) rest with
        | some r => some (Json.jnum ("Infinity".toList), r)
        | none => none
      else if c == '-' && ("Infinity".toList).isPrefixOf rest then
        some (Json.jnum ("-Infinity".toList), rest.drop 8)
      else if c == '-' || isDigitB c then
        match parseNum (c :: rest) with
        | some (lit, r) => some (Json.jnum lit, r)
        | none => none
      else none

/-- Parse the comma-separated items of a non-empty JSON array, up to and
including the closing bracket. -/
def parseArrItems : Nat → List Char → Option (List Json × List Char)
  | 0, _ => none
  | f+1, l =>
    match parseVal f l with
    | none => none
    | some (v, r) =>
      match skipWs r with
      | ',' :: r2 =>
        match parseArrItems f r2 with
        | some (xs, r3) => some (v :: xs, r3)
        | none => none
      | ']' :: r2 => some ([v], r2)
      | _ => none

/-- Parse the members of a non-empty JSON object, up to and including the
closing brace. -/
def parseObjItems : Nat → List Char → Option (List (List Char × Json) × List Char)
  | 0, _ => none
  | f+1, l =>
    match skipWs l with
    | [] => none
    | c :: rest =>
      if c == '"' then
        match parseStr (rest.length + 1) rest with
        | none => none
        | some (k, r) =>
          match skipWs r with
          | ':' :: r2 =>
            match parseVal f r2 with
            | none => none
            | some (v, r3) =>
              match skipWs r3 with
              | [] => none
              | ',' :: r4 =>
                match parseObjItems f r4 with
                | some (kvs, r5) => some ((k, v) :: kvs, r5)
                | none => none
              | c5 :: r4 => if c5 == rbrace then some ([(k, v)], r4) else none
          | _ => none
      else none

end

/-- Python `json.loads`: parse one JSON document; trailing non-blank input
("Extra data") is an error, i.e. `none`. -/
def json_loads (l : List Char) : Option Json :=
  match parseVal ((l.length + 1) * 2) l with
  | some (v, r) => if (skipWs r).isEmpty then some v else none
  | none => none

/-! ### Rendering parsed JSON back to Python text -/

/-- The apostrophe character, used by Python `repr` of strings. -/
def squote : Char := Char.ofNat 39

mutual

/-- Python `str(x)` of a value produced by `json.loads`, as interpolated by
f-strings.  Strings render verbatim, numbers render as their literal
(Python's float re-formatting, e.g. `5e2` to `500.0`, is approximated by the
literal itself), `True`/`False`/`None` for booleans and null, and containers
by their `repr` (string escaping inside `repr` is not modelled). -/
def pyStrOfJson : Json → List Char
  | Json.jstr s => s
  | Json.jnum lit => if lit = '-' :: ['0'] then ['0'] else lit
  | Json.jbool true => "True".toList
  | Json.jbool false => "False".toList
  | Json.null => "None".toList
  | Json.jarr xs => '[' :: (pyReprJoin xs ++ [']'])
  | Json.jobj kvs => lbrace :: (pyReprKVJoin kvs ++ [rbrace])

/-- Python `repr(x)` of a value produced by `json.loads` (strings quoted). -/
def pyReprOfJson : Json → List Char
  | Json.jstr s => squote :: (s ++ [squote])
  | Json.jnum lit => if lit = '-' :: ['0'] then ['0'] else lit
  | Json.jbool true => "True".toList
  | Json.jbool false => "False".toList
  | Json.null => "None".toList
  | Json.jarr xs => '[' :: (pyReprJoin xs ++ [']'])
  | Json.jobj kvs => lbrace :: (pyReprKVJoin kvs ++ [rbrace])

/-- Comma-separated `repr`s of list elements. -/
def pyReprJoin : List Json → List Char
  | [] => []
  | [x] => pyReprOfJson x
  | x :: y :: xs => pyReprOfJson x ++ (", ".toList) ++ pyReprJoin (y :: xs)

/-- Comma-separated `key: value` `repr`s of dict members. -/
def pyReprKVJoin : List (List Char × Json) → List Char
  | [] => []
  | [(k, v)] => (squote :: (k ++ [squote])) ++ (": ".toList) ++ pyReprOfJson v
  | (k, v) :: p :: kvs =>
    (squote :: (k ++ [squote])) ++ (": ".toList) ++ pyReprOfJson v
      ++ (", ".toList) ++ pyReprKVJoin (p :: kvs)

end

/-- Lookup in a Python dict built by `json.loads` from an association list:
for duplicate keys the last binding wins. -/
def dictGet : List (List Char × Json) → List Char → Option Json
  | [], _ => none
  | (k, v) :: rest, key =>
    match dictGet rest key with
    | some r => some r
    | none => if k = key then some v else none

/-- Python `x[key]` on a parsed JSON value: defined on dicts, a `KeyError`
or `TypeError` (any other value) is `none`. -/
def pyIndex : Json → List Char → Option Json
  | Json.jobj kvs, key => dictGet kvs key
  | _, _ => none

/-- Python `alert['type'] == 'spike'` (line 231): true exactly for the JSON
string `"spike"`; comparison of a non-string with `'spike'` is `False`. -/
def isSpikeType : Json → Bool
  | Json.jstr s => decide (s = ("spike".toList))
  | _ => false

/-- Is a JSON number literal numerically zero (all mantissa digits `0`)? -/
def numLitIsZero (lit : List Char) : Bool :=
  (lit.takeWhile (fun c => !(c == 'e' || c == 'E'))).all
    (fun c => c == '0' || c == '-' || c == '+' || c == '.')

/-- Python truthiness of a value produced by `json.loads`
(`if not alerts:`, line 226). -/
def pyTruthy : Json → Bool
  | Json.null => false
  | Json.jbool b => b
  | Json.jnum lit => !numLitIsZero lit
  | Json.jstr s => !s.isEmpty
  | Json.jarr xs => !xs.isEmpty
  | Json.jobj kvs => !kvs.isEmpty

/-! ### The prompt template (lines 172-212)

The f-string literal segments are transcribed byte-for-byte from the source
(including the 12/16-space indentation of the triple-quoted strings). -/

/-- Prompt text before `{data_as_text}`. -/
def promptPre : List Char :=
  ("\n            You are a \"Sales Velocity Analyst\".\n            Analyze the following sales DATA and consider the business CONTEXT.\n            Respond with *ONLY* a JSON list of all spikes and slumps, wrapped in ```json ... ``` tags.\n            If no issues are found, respond with an empty list: [].\n\n            DATA:\n            ").toList

/-- Prompt text between `{data_as_text}` and `{business_context}`. -/
def promptMid : List Char :=
  ("\n\n            CURRENT BUSINESS CONTEXT:\n            ").toList

/-- Prompt text between `{business_context}` and the Task-2 sentence. -/
def promptTasks0 : List Char :=
  ("\n\n            YOUR TASKS:\n            1.  **Analyze Data:** Segregate by \x27sku\x27.\n            2.  ").toList

/-- The Task-2 (spike) sentence up to `{alert_threshold}`. -/
def spikeTaskPre : List Char := ("**Task 2 (Spikes):** Check for sales >").toList

/-- The Task-2 (spike) sentence after `{alert_threshold}`. -/
def spikeTaskPost : List Char := ("% *above* the 7-day average.").toList

/-- The newline and indentation before `{slump_instructions}`. -/
def nl12 : List Char := ("\n            ").toList

/-- Prompt text after `{slump_instructions}` (the JSON format section). -/
def promptTail : List Char :=
  ("\n\n            JSON FORMAT FOR EACH ISSUE:\n            \x7b\n                \"type\": \"spike\" or \"slump\",\n                \"sku\": \"The SKU name\",\n                \"location\": \"The location\",\n                \"today_sales\": \"The most recent sales number\",\n                \"avg_sales\": \"The calculated 7-day average\",\n                \"change_pct\": \"The % increase or decrease\",\n                \"cause\": \"Your suggested cause, using business context if relevant.\"\n            \x7d\n            ").toList

/-- Slump block segment before the first `{slump_threshold}`. -/
def slumpTaskA : List Char := ("\n                - **Task 3 (Slumps):** Check for sales >").toList

/-- Slump block segment between the two `{slump_threshold}`s. -/
def slumpTaskB : List Char := ("% *below* the 7-day average. A \"Slump\" is >").toList

/-- Slump block segment after the second `{slump_threshold}`. -/
def slumpTaskC : List Char :=
  ("% sales *lower* than the 7-day moving average.\n                ").toList

/-- Lines 173, 177-180: `slump_instructions` is empty unless the slump
checkbox is enabled, in which case it is the Task-3 block. -/
def slump_instructions (warn_on_slump : Bool) (slump_threshold : Nat) : List Char :=
  if warn_on_slump then
    slumpTaskA ++ pyStr slump_threshold ++ slumpTaskB ++ pyStr slump_threshold ++ slumpTaskC
  else []

/-- Lines 174, 181: the spinner text. -/
def spinner_text (alert_threshold slump_threshold : Nat) (warn_on_slump : Bool) : List Char :=
  if warn_on_slump then
    ("AI is analyzing for spikes (>").toList ++ pyStr alert_threshold
      ++ ("%) and slumps (<").toList ++ pyStr slump_threshold ++ ("%)...").toList
  else
    ("AI is analyzing for spikes > ").toList ++ pyStr alert_threshold ++ ("%...").toList

/-- Lines 175, 182: the e-mail subject. -/
def subject_text (alert_threshold : Nat) (warn_on_slump : Bool) : List Char :=
  if warn_on_slump then
    ("SUBJECT: 📈📉 Sales Velocity Alert (Spikes & Slumps Detected)").toList
  else
    ("SUBJECT: 🚨 URGENT: Demand Spike Warning (Threshold: ").toList
      ++ pyStr alert_threshold ++ ("%)").toList

/-- Line 263: `subject_text.replace("SUBJECT: ", "")`. -/
def subject_clean (alert_threshold : Nat) (warn_on_slump : Bool) : List Char :=
  pyReplace (("SUBJECT: ").toList) [] (subject_text alert_threshold warn_on_slump)

/-- Lines 185-212: the prompt, an f-string over the user's inputs. -/
def prompt (data_as_text business_context : List Char)
    (alert_threshold slump_threshold : Nat) (warn_on_slump : Bool) : List Char :=
  promptPre ++ data_as_text ++ promptMid ++ business_context ++ promptTasks0
    ++ spikeTaskPre ++ pyStr alert_threshold ++ spikeTaskPost ++ nl12
    ++ slump_instructions warn_on_slump slump_threshold ++ promptTail

/-! ### Rendering the report and e-mail body (lines 214-302) -/

/-- Line 227-228 message. -/
def noWarnMsg : List Char :=
  ("All SKUs are operating within normal sales velocity. No warnings to report.").toList

/-- Line 224: the e-mail body opening. -/
def emailGreeting : List Char :=
  ("Hi Team,\n\nMy analysis is complete. Here are the findings:\n\n").toList

/-- Line 260: the e-mail body closing. -/
def emailSignoff : List Char := ("\n\nBest,\nSales Velocity Agent").toList

/-- Line 217 `st.success`. -/
def successMsg : List Char := ("Analysis Complete!").toList

/-- Line 218 `st.markdown`. -/
def reportHdr : List Char := ("### 🤖 AI-Generated Visual Report").toList

/-- Line 298 `st.error`. -/
def jsonErrMsg : List Char :=
  ("Error: The AI\x27s response was not in the correct JSON format. Here is the raw text:").toList

/-- Line 301 `st.error` (the exception text appended there is not modelled). -/
def procErrMsg : List Char := ("Error while processing alerts:").toList

/-- Line 302 `st.text` beginning. -/
def rawRespPre : List Char := ("Raw AI response: ").toList

/-- The `st.markdown("---")` separator. -/
def hrLine : List Char := ("---").toList

/-- Line 233 spike card header. -/
def spikeHdrScreen (aT : Nat) : List Char :=
  ("### ⚠️ SPIKE WARNING (>").toList ++ pyStr aT ++ ("%)").toList

/-- Line 237 slump card header. -/
def slumpHdrScreen (sT : Nat) : List Char :=
  ("### 📉 SLUMP WARNING (>").toList ++ pyStr sT ++ ("%)").toList

/-- Line 234 e-mail spike header. -/
def spikeHdrMail (aT : Nat) : List Char :=
  ("--- \n ⚠️ SPIKE WARNING (>").toList ++ pyStr aT ++ ("%) \n").toList

/-- Line 238 e-mail slump header. -/
def slumpHdrMail (sT : Nat) : List Char :=
  ("--- \n 📉 SLUMP WARNING (>").toList ++ pyStr sT ++ ("%) \n").toList

/-- Line 241. -/
def skuLine (v : Json) : List Char := ("* **SKU:** `").toList ++ pyStrOfJson v ++ ("`").toList

/-- Line 242. -/
def locLine (v : Json) : List Char :=
  ("* **Location:** `").toList ++ pyStrOfJson v ++ ("`").toList

/-- Line 243. -/
def todayLine (v : Json) : List Char :=
  ("* **Today\x27s Sales:** `").toList ++ pyStrOfJson v ++ ("`").toList

/-- Line 244. -/
def avgLine (v : Json) : List Char :=
  ("* **7-Day Average:** `").toList ++ pyStrOfJson v ++ ("`").toList

/-- Line 245. -/
def changeLine (v : Json) : List Char :=
  ("* **Change:** `").toList ++ pyStrOfJson v ++ ("%`").toList

/-- Line 246. -/
def causeLine (v : Json) : List Char := ("* **Suggested Cause:** ").toList ++ pyStrOfJson v

/-- Line 247. -/
def dataForLine (v : Json) : List Char :=
  ("**Data for ").toList ++ pyStrOfJson v ++ (":**").toList

/-- Line 252. -/
def mailSku (v : Json) : List Char := ("* SKU: ").toList ++ pyStrOfJson v ++ (" \n").toList

/-- Line 253. -/
def mailLoc (v : Json) : List Char :=
  ("* Location: ").toList ++ pyStrOfJson v ++ (" \n").toList

/-- Line 254. -/
def mailToday (v : Json) : List Char :=
  ("* Today\x27s Sales: ").toList ++ pyStrOfJson v ++ (" \n").toList

/-- Line 255. -/
def mailAvg (v : Json) : List Char :=
  ("* 7-Day Average: ").toList ++ pyStrOfJson v ++ (" \n").toList

/-- Line 256. -/
def mailChange (v : Json) : List Char :=
  ("* Change: ").toList ++ pyStrOfJson v ++ ("% \n").toList

/-- Line 257. -/
def mailCause (v : Json) : List Char :=
  ("* Suggested Cause: ").toList ++ pyStrOfJson v ++ (" \n\n").toList

/-- JSON object keys referenced by the alert loop. -/
def typeKey : List Char := ("type").toList

/-- The `sku` key. -/
def skuKey : List Char := ("sku").toList

/-- The `location` key. -/
def locationKey : List Char := ("location").toList

/-- The `today_sales` key. -/
def todayKey : List Char := ("today_sales").toList

/-- The `avg_sales` key. -/
def avgKey : List Char := ("avg_sales").toList

/-- The `change_pct` key. -/
def pctKey : List Char := ("change_pct").toList

/-- The `cause` key. -/
def causeKey : List Char := ("cause").toList

/-- The on-screen markdown lines of one alert card (lines 230-249). -/
def screenLines (aT sT : Nat) (t sku loc ts avg cp cz : Json) : List (List Char) :=
  [hrLine,
   if isSpikeType t then spikeHdrScreen aT else slumpHdrScreen sT,
   skuLine sku, locLine loc, todayLine ts, avgLine avg, changeLine cp, causeLine cz,
   dataForLine sku]

/-- The e-mail body block of one alert (lines 234, 238, 252-257). -/
def mailChunk (aT sT : Nat) (t sku loc ts avg cp cz : Json) : List Char :=
  (if isSpikeType t then spikeHdrMail aT else slumpHdrMail sT)
    ++ mailSku sku ++ mailLoc loc ++ mailToday ts ++ mailAvg avg
    ++ mailChange cp ++ mailCause cz

/-- One iteration of the alert loop (lines 230-257).  A missing key or a
non-dict alert raises in Python (caught at line 300) and is `none` here. -/
def renderAlert (aT sT : Nat) (a : Json) : Option (List (List Char) × List Char) :=
  match pyIndex a typeKey with
  | none => none
  | some t =>
    match pyIndex a skuKey, pyIndex a locationKey, pyIndex a todayKey,
          pyIndex a avgKey, pyIndex a pctKey, pyIndex a causeKey with
    | some sku, some loc, some ts, some avg, some cp, some cz =>
      some (screenLines aT sT t sku loc ts avg cp cz,
            mailChunk aT sT t sku loc ts avg cp cz)
    | _, _, _, _, _, _ => none

/-- The whole alert loop; partial output before an exception is not
modelled (no settled claim refers to it). -/
def renderAlerts (aT sT : Nat) : List Json → Option (List (List Char) × List Char)
  | [] => some ([], [])
  | a :: rest =>
    match renderAlert aT sT a, renderAlerts aT sT rest with
    | some (ls, ch), some (ls2, ch2) => some (ls ++ ls2, ch ++ ch2)
    | _, _ => none

/-- Lines 224-257: the `if not alerts: ... else: for alert in alerts: ...`
block, producing the shown markdown lines and the e-mail body text before
the sign-off.  A truthy non-list value raises a `TypeError` in the loop
(caught at line 300) and is `none` here. -/
def renderPhase (aT sT : Nat) (v : Json) : Option (List (List Char) × List Char) :=
  if pyTruthy v = false then some ([noWarnMsg], emailGreeting ++ noWarnMsg)
  else
    match v with
    | Json.jarr alerts =>
      match renderAlerts aT sT alerts with
      | some (ls, ch) => some (ls, emailGreeting ++ ch)
      | none => none
    | _ => none

/-- All seven schema keys are present in the alert (so the loop body cannot
raise). -/
def hasKeys (a : Json) : Bool :=
  (pyIndex a typeKey).isSome && (pyIndex a skuKey).isSome
    && (pyIndex a locationKey).isSome && (pyIndex a todayKey).isSome
    && (pyIndex a avgKey).isSome && (pyIndex a pctKey).isSome
    && (pyIndex a causeKey).isSome

/-- Key lookup with a default (only used where `hasKeys` holds). -/
def jGetD (a : Json) (k : List Char) : Json := (pyIndex a k).getD Json.null

/-- Lines 137-144: the auto-send checkbox exists only when the recipient
e-mail field is non-empty; otherwise `auto_send` is `False`. -/
def autoSendValue (recipient_email : List Char) (checkboxChecked : Bool) : Bool :=
  if recipient_email.isEmpty then false else checkboxChecked

/-- Line 267 `st.info`. -/
def autoInfoLine (r : List Char) : List Char :=
  ("Autonomous mode enabled. Sending alert to `").toList ++ r ++ ("`...").toList

/-- Line 280 `st.markdown`. -/
def readyLine (r : List Char) : List Char :=
  ("**Ready to send the report to:** `").toList ++ r ++ ("`").toList

/-- The observable outcome of one press of "Analyze Sales Velocity"
(lines 170-302), given the external model's response text. -/
structure ActionResult where
  modelCalls : Nat
  shown : List (List Char)
  emailBody : Option (List Char)
  emailAttempt : Option (List Char × List Char × List Char)
  reviewOffered : Bool

/-- The `SENDER_EMAIL` secrets key (looked up at lines 61, 268 and 282). -/
def senderEmailKey : List Char := ("SENDER_EMAIL").toList

/-- `st.secrets[k]`: `none` models the `KeyError` of a missing key. -/
def lookupSecret (secrets : List (List Char × List Char)) (k : List Char) : Option (List Char) :=
  match secrets with
  | [] => none
  | (k2, v) :: rest => if k2 = k then some v else lookupSecret rest k

/-- Lines 259-295 given the outcome of the render phase: on success the
separator, the autonomous-send or review branch (lines 262-289) and the
prompt-revealing expander (line 294) run; on a render exception the line
300-302 handler runs.  Both sending paths evaluate
`st.secrets['SENDER_EMAIL']` inside the spinner f-string (lines 268 and
282) *before* calling `send_email`: when that key is absent the f-string
raises `KeyError`, which the line-300 handler catches, so `send_email` is
never invoked and the error message plus raw response are shown instead
(the e-mail body variable was already fully built at that point). -/
def afterRender (secrets : List (List Char × List Char))
    (responseText data_as_text business_context recipient_email : List Char)
    (alert_threshold slump_threshold : Nat)
    (warn_on_slump autoChecked sendClicked : Bool) :
    Option (List (List Char) × List Char) → ActionResult
  | none => ⟨1, [successMsg, reportHdr, procErrMsg, rawRespPre ++ responseText],
      none, none, false⟩
  | some (ls, bodyCore) =>
    let pr := prompt data_as_text business_context alert_threshold slump_threshold warn_on_slump
    let auto_send := autoSendValue recipient_email autoChecked
    let body := bodyCore ++ emailSignoff
    let subj := subject_clean alert_threshold warn_on_slump
    if auto_send then
      match lookupSecret secrets senderEmailKey with
      | some _ =>
        ⟨1, [successMsg, reportHdr] ++ ls ++ [hrLine, autoInfoLine recipient_email, pr],
         some body, some (recipient_email, subj, body), false⟩
      | none =>
        ⟨1, [successMsg, reportHdr] ++ ls ++ [hrLine, autoInfoLine recipient_email,
            procErrMsg, rawRespPre ++ responseText],
         some body, none, false⟩
    else
      if sendClicked then
        match lookupSecret secrets senderEmailKey with
        | some _ =>
          ⟨1, [successMsg, reportHdr] ++ ls ++ [hrLine, readyLine recipient_email, pr],
           some body, some (recipient_email, subj, body), true⟩
        | none =>
          ⟨1, [successMsg, reportHdr] ++ ls ++ [hrLine, readyLine recipient_email,
              procErrMsg, rawRespPre ++ responseText],
           some body, none, true⟩
      else
        ⟨1, [successMsg, reportHdr] ++ ls ++ [hrLine, readyLine recipient_email, pr],
         some body, none, true⟩

/-- Lines 220-302 given the outcome of `json.loads`: the
`json.JSONDecodeError` handler (lines 297-299), or the render phase. -/
def afterParse (secrets : List (List Char × List Char))
    (responseText data_as_text business_context recipient_email : List Char)
    (alert_threshold slump_threshold : Nat)
    (warn_on_slump autoChecked sendClicked : Bool) : Option Json → ActionResult
  | none => ⟨1, [successMsg, reportHdr, jsonErrMsg, responseText], none, none, false⟩
  | some v =>
    afterRender secrets responseText data_as_text business_context recipient_email
      alert_threshold slump_threshold warn_on_slump autoChecked sendClicked
      (renderPhase alert_threshold slump_threshold v)

/-- Lines 214-302 as a pure function.  `model.generate_content` is called
exactly once (line 216), so `modelCalls = 1` on every path; `sendClicked`
models a press of the review button (line 281); `emailAttempt` records the
`send_email` invocation (recipient, subject, body), `emailBody` the
constructed body text. -/
def analyzeAction (secrets : List (List Char × List Char))
    (responseText data_as_text business_context recipient_email : List Char)
    (alert_threshold slump_threshold : Nat)
    (warn_on_slump autoChecked sendClicked : Bool) : ActionResult :=
  afterParse secrets responseText data_as_text business_context recipient_email
    alert_threshold slump_threshold warn_on_slump autoChecked sendClicked
    (json_loads (fenceStrip responseText))

/-! ### `send_email` (lines 59-85) -/

/-- SMTP connection parameters recorded on a successful send. -/
structure ConnInfo where
  host : List Char
  port : Nat
  usedStartTls : Bool
  loginUser : List Char
  loginPass : List Char

/-- The single plaintext message assembled at lines 69-73. -/
structure EmailMessageM where
  fromAddr : List Char
  toAddr : List Char
  subject : List Char
  body : List Char

/-- The external SMTP world: the `smtplib` block either succeeds or raises
an exception with the given `str(e)`. -/
inductive SmtpWorld where
  | delivered : SmtpWorld
  | raises : List Char → SmtpWorld

/-- What `send_email` did: its return value `(ok, msg)`, whether any SMTP
connection was opened, the connection parameters and message on success. -/
structure SendOutcome where
  ok : Bool
  msg : List Char
  connected : Bool
  conn : Option ConnInfo
  sent : Option EmailMessageM

/-- The `SENDER_PASSWORD` secrets key. -/
def senderPasswordKey : List Char := ("SENDER_PASSWORD").toList

/-- Line 81: the substring tested on `str(e)` to recognise an SMTP login
rejection (gmail's authentication-failure text). -/
def authFailMarker : List Char := ("Username and Password not accepted").toList

/-- Python `pat in s` substring test. -/
def containsSub (pat : List Char) : List Char → Bool
  | [] => pat.isEmpty
  | c :: cs => pat.isPrefixOf (c :: cs) || containsSub pat cs

/-- Line 66 return message. -/
def notConfiguredMsg : List Char := ("Email credentials not configured in secrets.").toList

/-- Line 83 return message. -/
def credFailedMsg : List Char := ("Email credentials failed.").toList

/-- Line 85 return message beginning. -/
def sendFailPre : List Char := ("Email failed to send: ").toList

/-- Line 79 return message. -/
def sentOkMsg : List Char := ("Email sent successfully!").toList

/-- Lines 59-85: `send_email`.  Both `try/except` blocks are embedded by
this total function, so no exception ever propagates to the caller. -/
def send_email (secrets : List (List Char × List Char))
    (recipient_email subject body : List Char) (world : SmtpWorld) : SendOutcome :=
  match lookupSecret secrets senderEmailKey, lookupSecret secrets senderPasswordKey with
  | some se, some sp =>
    match world with
    | SmtpWorld.delivered =>
      ⟨true, sentOkMsg, true,
       some ⟨("smtp.gmail.com").toList, 587, true, se, sp⟩,
       some ⟨se, recipient_email, subject, body⟩⟩
    | SmtpWorld.raises e =>
      if containsSub authFailMarker e then ⟨false, credFailedMsg, true, none, none⟩
      else ⟨false, sendFailPre ++ e, true, none, none⟩
  | _, _ => ⟨false, notConfiguredMsg, false, none, none⟩

/-! ### The CSV upload flow (lines 148-159, 307-308) -/

/-- A row of the sales CSV (the spec's data model: `date`, `sku`, `sales`,
`location` columns). -/
structure SRow where
  date : List Char
  sku : List Char
  sales : Int
  location : List Char

/-- A parsed dataframe. -/
abbrev DataFrame := List SRow

/-- First-occurrence deduplication (pandas `Series.unique`). -/
def uniqAux (seen : List (List Char)) : List (List Char) → List (List Char)
  | [] => []
  | x :: xs => if x ∈ seen then uniqAux seen xs else x :: uniqAux (x :: seen) xs

/-- Line 162: `df['sku'].unique()`. -/
def uniqueSkus (df : DataFrame) : List (List Char) := uniqAux [] (df.map (fun r => r.sku))

/-- Line 308 error message beginning. -/
def csvErrPre : List Char := ("Error reading CSV file: ").toList

/-- The outcome of handling one uploaded file. -/
structure CsvResult where
  shown : List (List Char)
  preview : Option DataFrame
  chartsOffered : Bool
  chartSkus : List (List Char)
  promptBuilt : Option (List Char)
  modelCalls : Nat

/-- Lines 148-170 and 307-308: `pd.read_csv` (external, modelled by the
`parse` argument) either yields a dataframe - then the preview expander and
the per-SKU chart expander are rendered, and pressing "Analyze Sales
Velocity" builds the prompt (`df.to_string()` modelled by `toStr`) and makes
one model call - or raises, in which case only the error message is shown
and nothing further happens for that file. -/
def csvAction (toStr : DataFrame → List Char) (parse : Except (List Char) DataFrame)
    (business_context : List Char) (aT sT : Nat) (warn analyzeClicked : Bool) : CsvResult :=
  match parse with
  | Except.error e => ⟨[csvErrPre ++ e], none, false, [], none, 0⟩
  | Except.ok df =>
    ⟨[], some df, true, uniqueSkus df,
     if analyzeClicked then some (prompt (toStr df) business_context aT sT warn) else none,
     if analyzeClicked then 1 else 0⟩

/-! ### `clear_form` (lines 19-27) -/

/-- A Streamlit session-state value. -/
inductive SVal where
  | strv : List Char → SVal
  | intv : Int → SVal
  | boolv : Bool → SVal
  | filev : List Char → SVal
deriving DecidableEq

/-- `st.session_state` as a partial map from keys to values. -/
abbrev SessionState := List Char → Option SVal

/-- `st.session_state[k] = v`. -/
def setK (st : SessionState) (k : List Char) (v : SVal) : SessionState :=
  fun k2 => if k2 = k then some v else st k2

/-- The `recipient_email` widget key. -/
def recipientKey : List Char := ("recipient_email").toList

/-- The `business_context` widget key. -/
def contextKey : List Char := ("business_context").toList

/-- The `alert_slider` widget key. -/
def alertSliderKey : List Char := ("alert_slider").toList

/-- The `slump_checkbox` widget key. -/
def slumpCheckboxKey : List Char := ("slump_checkbox").toList

/-- The `slump_slider` widget key. -/
def slumpSliderKey : List Char := ("slump_slider").toList

/-- The `auto_send_checkbox` widget key. -/
def autoCheckboxKey : List Char := ("auto_send_checkbox").toList

/-- Lines 19-27: `clear_form`: reset the five form fields unconditionally,
and the auto-send checkbox only if its key exists. -/
def clear_form (st : SessionState) : SessionState :=
  let st1 := setK st recipientKey (SVal.strv [])
  let st2 := setK st1 contextKey (SVal.strv [])
  let st3 := setK st2 alertSliderKey (SVal.intv 25)
  let st4 := setK st3 slumpCheckboxKey (SVal.boolv false)
  let st5 := setK st4 slumpSliderKey (SVal.intv 25)
  if (st5 autoCheckboxKey).isSome then setK st5 autoCheckboxKey (SVal.boolv false) else st5

/-! ### Infrastructure: where can a pattern sit inside an append? -/

/-- A pattern occurring in `a ++ b` occurs in `a`, occurs in `b`, or
straddles the boundary: a nonempty proper prefix of it is a suffix of `a`
and the rest is a prefix of `b`. -/
theorem infix_split {α : Type} (p a b : List α) (h : p <:+: a ++ b) :
    p <:+: a ∨ p <:+: b ∨
      ∃ i, 0 < i ∧ i < p.length ∧ p.take i <:+ a ∧ p.drop i <+: b := by
  obtain ⟨u, v, huv⟩ := h
  rcases le_or_lt (u.length + p.length) a.length with hle | hgt
  · left
    have h1 : u ++ p <+: a ++ b := ⟨v, huv⟩
    have h2 : u ++ p <+: a :=
      List.prefix_of_prefix_length_le h1 (List.prefix_append a b) (by simpa using hle)
    exact ((List.suffix_append u p).isInfix).trans h2.isInfix
  · rcases le_or_lt a.length u.length with hau | hlt
    · right; left
      have h2 : u <+: a ++ b := ⟨p ++ v, by simpa [List.append_assoc] using huv⟩
      have h3 : a <+: u := List.prefix_of_prefix_length_le (List.prefix_append a b) h2 hau
      obtain ⟨u2, rfl⟩ := h3
      have h4 : a ++ (u2 ++ (p ++ v)) = a ++ b := by simpa [List.append_assoc] using huv
      exact ⟨u2, v, by simpa [List.append_assoc] using List.append_cancel_left h4⟩
    · right; right
      have hi0 : 0 < a.length - u.length := by omega
      have hil : a.length - u.length < p.length := by omega
      have hfull : (u ++ p.take (a.length - u.length)) ++
          (p.drop (a.length - u.length) ++ v) = a ++ b := by
        simp only [List.append_assoc]
        rw [← List.append_assoc (p.take (a.length - u.length)), List.take_append_drop]
        simpa [List.append_assoc] using huv
      have hlen : (u ++ p.take (a.length - u.length)).length = a.length := by
        simp only [List.length_append, List.length_take]
        omega
      have heq : u ++ p.take (a.length - u.length) = a :=
        (List.prefix_of_prefix_length_le ⟨_, hfull⟩ (List.prefix_append a b)
          (le_of_eq hlen)).eq_of_length hlen
      refine ⟨a.length - u.length, hi0, hil, ⟨u, heq⟩, ?_⟩
      rw [heq] at hfull
      exact ⟨v, List.append_cancel_left hfull⟩

/-- Refute `p <:+: a ++ b` when `p` occurs in neither part and no nonempty
proper prefix of `p` is a suffix of `a`. -/
theorem not_infix_append_tk {α : Type} (M a b : List α)
    (ha : ¬ M <:+: a) (hb : ¬ M <:+: b)
    (h : ∀ i, i < M.length → 0 < i → ¬ M.take i <:+ a) : ¬ M <:+: a ++ b := by
  intro hx
  rcases infix_split M a b hx with h1 | h1 | ⟨i, h0, hl, hta, _⟩
  · exact ha h1
  · exact hb h1
  · exact h i hl h0 hta

/-- Refute `p <:+: a ++ b` when `p` occurs in neither part and no nonempty
proper suffix of `p` is a prefix of `b`. -/
theorem not_infix_append_dr {α : Type} (M a b : List α)
    (ha : ¬ M <:+: a) (hb : ¬ M <:+: b)
    (h : ∀ i, i < M.length → 0 < i → ¬ M.drop i <+: b) : ¬ M <:+: a ++ b := by
  intro hx
  rcases infix_split M a b hx with h1 | h1 | ⟨i, h0, hl, _, htd⟩
  · exact ha h1
  · exact hb h1
  · exact h i hl h0 htd

/-- A short non-prefix of `c` is not a prefix of `c ++ d` either. -/
theorem not_prefix_append_short {α : Type} (x c d : List α)
    (h : ¬ x <+: c) (hl : x.length ≤ c.length) : ¬ x <+: c ++ d :=
  fun hx => h (List.prefix_of_prefix_length_le hx (List.prefix_append c d) hl)

/-! ### Digit strings contain only digit characters -/

/-- `digitChar` always yields a decimal digit character. -/
theorem digitChar_range (n : Nat) :
    48 ≤ (digitChar n).toNat ∧ (digitChar n).toNat ≤ 57 := by
  unfold digitChar
  split <;> decide

/-- Every character of `natDigitsF` is a decimal digit character. -/
theorem natDigitsF_range (f : Nat) :
    ∀ n c, c ∈ natDigitsF f n → 48 ≤ c.toNat ∧ c.toNat ≤ 57 := by
  induction f with
  | zero => intro n c hc; simp [natDigitsF] at hc
  | succ f ih =>
    intro n c hc
    by_cases h0 : n = 0
    · simp [natDigitsF, h0] at hc
    · simp only [natDigitsF, if_neg h0, List.mem_append, List.mem_singleton] at hc
      rcases hc with hc | hc
      · exact ih _ _ hc
      · subst hc; exact digitChar_range _


/-- Every character of `pyStr n` is a decimal digit character. -/
theorem pyStr_range (n : Nat) : ∀ c, c ∈ pyStr n → 48 ≤ c.toNat ∧ c.toNat ≤ 57 := by
  intro c hc
  unfold pyStr at hc
  split at hc
  · simp at hc; subst hc; decide
  · exact natDigitsF_range _ _ _ hc

/-- The marker substring `"Task 3"` that identifies the slump task. -/
def M3 : List Char := ("Task 3").toList

/-- With the slump checkbox off, `"Task 3"` does not occur anywhere in the
prompt, provided it occurs in neither the CSV text nor the business
context. -/
theorem task3_absent (data business : List Char) (aT sT : Nat)
    (hd : ¬ M3 <:+: data) (hb : ¬ M3 <:+: business) :
    ¬ M3 <:+: prompt data business aT sT false := by
  have hpy : ∀ c, c ∈ pyStr aT → 48 ≤ c.toNat ∧ c.toNat ≤ 57 := pyStr_range aT
  have hTmem : ('T' : Char) ∈ M3 := by decide
  have hTtake : ∀ i, 0 < i → ('T' : Char) ∈ M3.take i := by
    intro i h0
    rcases i with _ | j
    · omega
    · rw [show M3 = 'T' :: (("ask 3").toList) from rfl, List.take_succ_cons]
      exact List.mem_cons_self _ _
  have hshape : prompt data business aT sT false =
      promptPre ++ (data ++ (promptMid ++ (business ++ (promptTasks0 ++
        (spikeTaskPre ++ (pyStr aT ++ (spikeTaskPost ++ (nl12 ++ promptTail)))))))) := by
    simp [prompt, slump_instructions, List.append_assoc]
  rw [hshape]
  have L8 : ¬ M3 <:+: spikeTaskPost ++ (nl12 ++ promptTail) := by decide
  have L7 : ¬ M3 <:+: pyStr aT ++ (spikeTaskPost ++ (nl12 ++ promptTail)) := by
    apply not_infix_append_tk
    · intro hx
      have h1 := hpy 'T' (hx.sublist.subset hTmem)
      rw [show ('T' : Char).toNat = 84 from rfl] at h1
      omega
    · exact L8
    · intro i _ h0 hx
      have h1 := hpy 'T' (hx.sublist.subset (hTtake i h0))
      rw [show ('T' : Char).toNat = 84 from rfl] at h1
      omega
  have L6 : ¬ M3 <:+: spikeTaskPre ++ (pyStr aT ++ (spikeTaskPost ++ (nl12 ++ promptTail))) :=
    not_infix_append_tk _ _ _ (by decide) L7 (by decide)
  have L5 : ¬ M3 <:+: promptTasks0 ++ (spikeTaskPre ++ (pyStr aT ++
      (spikeTaskPost ++ (nl12 ++ promptTail)))) :=
    not_infix_append_tk _ _ _ (by decide) L6 (by decide)
  have L4 : ¬ M3 <:+: business ++ (promptTasks0 ++ (spikeTaskPre ++ (pyStr aT ++
      (spikeTaskPost ++ (nl12 ++ promptTail))))) := by
    apply not_infix_append_dr _ _ _ hb L5
    intro i hi h0 hx
    have hdec : ∀ i, i < M3.length → 0 < i → ¬ M3.drop i <+: promptTasks0 := by decide
    have hlen : (M3.drop i).length ≤ promptTasks0.length := by
      have h6 : M3.length ≤ promptTasks0.length := by decide
      simp only [List.length_drop]
      omega
    exact not_prefix_append_short _ promptTasks0 _ (hdec i hi h0) hlen hx
  have L3 : ¬ M3 <:+: promptMid ++ (business ++ (promptTasks0 ++ (spikeTaskPre ++
      (pyStr aT ++ (spikeTaskPost ++ (nl12 ++ promptTail)))))) :=
    not_infix_append_tk _ _ _ (by decide) L4 (by decide)
  have L2 : ¬ M3 <:+: data ++ (promptMid ++ (business ++ (promptTasks0 ++ (spikeTaskPre ++
      (pyStr aT ++ (spikeTaskPost ++ (nl12 ++ promptTail))))))) := by
    apply not_infix_append_dr _ _ _ hd L3
    intro i hi h0 hx
    have hdec : ∀ i, i < M3.length → 0 < i → ¬ M3.drop i <+: promptMid := by decide
    have hlen : (M3.drop i).length ≤ promptMid.length := by
      have h6 : M3.length ≤ promptMid.length := by decide
      simp only [List.length_drop]
      omega
    exact not_prefix_append_short _ promptMid _ (hdec i hi h0) hlen hx
  exact not_infix_append_tk _ _ _ (by decide) L2 (by decide)

/-- C1: Prompt assembly is a pure function of the user's inputs: the prompt
contains the CSV text, the business context, and the Task-2 spike sentence
with the configured spike threshold; it contains the Task-3 slump block
(with the configured slump threshold) if and only if the slump checkbox is
enabled, in which case the spinner text and e-mail subject are the combined
spikes-and-slumps variants (otherwise the spike-only variants).  The
hypotheses rule out the degenerate inputs in which the user's own CSV text
or context string already contains the marker `"Task 3"`. -/
theorem C1_prompt_assembly (data business : List Char) (aT sT : Nat) (warn : Bool)
    (hd : ¬ M3 <:+: data) (hb : ¬ M3 <:+: business) :
    data <:+: prompt data business aT sT warn
    ∧ business <:+: prompt data business aT sT warn
    ∧ (spikeTaskPre ++ pyStr aT ++ spikeTaskPost) <:+: prompt data business aT sT warn
    ∧ (slump_instructions true sT <:+: prompt data business aT sT warn ↔ warn = true)
    ∧ (warn = true →
        spinner_text aT sT warn =
          ("AI is analyzing for spikes (>").toList ++ pyStr aT
            ++ ("%) and slumps (<").toList ++ pyStr sT ++ ("%)...").toList
        ∧ subject_text aT warn =
          ("SUBJECT: 📈📉 Sales Velocity Alert (Spikes & Slumps Detected)").toList)
    ∧ (warn = false →
        spinner_text aT sT warn =
          ("AI is analyzing for spikes > ").toList ++ pyStr aT ++ ("%...").toList
        ∧ subject_text aT warn =
          ("SUBJECT: 🚨 URGENT: Demand Spike Warning (Threshold: ").toList
            ++ pyStr aT ++ ("%)").toList) := by
  refine ⟨?_, ?_, ?_, ⟨?_, ?_⟩, ?_, ?_⟩
  · exact ⟨promptPre,
      promptMid ++ business ++ promptTasks0 ++ spikeTaskPre ++ pyStr aT ++ spikeTaskPost
        ++ nl12 ++ slump_instructions warn sT ++ promptTail,
      by simp [prompt, List.append_assoc]⟩
  · exact ⟨promptPre ++ data ++ promptMid,
      promptTasks0 ++ spikeTaskPre ++ pyStr aT ++ spikeTaskPost
        ++ nl12 ++ slump_instructions warn sT ++ promptTail,
      by simp [prompt, List.append_assoc]⟩
  · exact ⟨promptPre ++ data ++ promptMid ++ business ++ promptTasks0,
      nl12 ++ slump_instructions warn sT ++ promptTail,
      by simp [prompt, List.append_assoc]⟩
  · intro h
    cases warn
    · exfalso
      have hA : M3 <:+: slumpTaskA := by decide
      have hpre : slumpTaskA <+: slump_instructions true sT :=
        ⟨pyStr sT ++ slumpTaskB ++ pyStr sT ++ slumpTaskC,
         by simp [slump_instructions, List.append_assoc]⟩
      exact task3_absent data business aT sT hd hb ((hA.trans hpre.isInfix).trans h)
    · rfl
  · intro hw
    subst hw
    exact ⟨promptPre ++ data ++ promptMid ++ business ++ promptTasks0
        ++ spikeTaskPre ++ pyStr aT ++ spikeTaskPost ++ nl12,
      promptTail, by simp [prompt, List.append_assoc]⟩
  · intro hw; subst hw; exact ⟨rfl, rfl⟩
  · intro hw; subst hw; exact ⟨rfl, rfl⟩

/-- Witness for C1 at a concrete input (slump detection enabled). -/
theorem C1_prompt_assembly_witness :
    ("d1 COF-001 10 Hyd").toList <:+:
      prompt (("d1 COF-001 10 Hyd").toList) (("Festive offer").toList) 30 20 true :=
  (C1_prompt_assembly (("d1 COF-001 10 Hyd").toList) (("Festive offer").toList) 30 20 true
    (by decide) (by decide)).1

/-! ### Fence-stripping lemmas (for the response-parsing claims) -/

/-- `pyReplaceF` leaves a list without any occurrence of the pattern
unchanged (for any fuel). -/
theorem pyReplaceF_no_occurrence (pat rep : List Char) :
    ∀ f l, ¬ pat <:+: l → pyReplaceF pat rep f l = l := by
  intro f
  induction f with
  | zero => intro l _; cases l <;> rfl
  | succ f ih =>
    intro l h
    cases l with
    | nil => rfl
    | cons c cs =>
      have hb : pat.isPrefixOf (c :: cs) = false := by
        apply Bool.eq_false_iff.mpr
        intro hx
        exact h (List.IsPrefix.isInfix (List.isPrefixOf_iff_prefix.mp hx))
      have hcs : ¬ pat <:+: cs := fun hx => h (List.infix_cons hx)
      simp [pyReplaceF, hb, ih cs hcs]

/-- `pyReplaceF` consumes a pattern occurrence at the head. -/
theorem pyReplaceF_consume (pat rep t : List Char) (hne : pat ≠ []) (f : Nat) :
    pyReplaceF pat rep (f+1) (pat ++ t) = rep ++ pyReplaceF pat rep f t := by
  cases pat with
  | nil => exact absurd rfl hne
  | cons p ps =>
    have hpre : (p :: ps).isPrefixOf ((p :: ps) ++ t) = true :=
      List.isPrefixOf_iff_prefix.mpr (List.prefix_append _ _)
    have hdrop : ((p :: ps) ++ t).drop (p :: ps).length = t := List.drop_left _ _
    rw [List.cons_append] at hpre hdrop
    simp [pyReplaceF, hpre, hdrop]

/-- If the fence does not occur in `s`, the opening fence with its `json`
tag does not occur in `s` followed by a closing fence. -/
theorem bjson_not_infix_tail (s : List Char) (hs : ¬ bbb <:+: s) :
    ¬ bjson <:+: s ++ bbb := by
  intro hx
  rcases infix_split bjson s bbb hx with h1 | h1 | ⟨i, h0, hl, _, htd⟩
  · exact hs ((show bbb <+: bjson by decide).isInfix.trans h1)
  · exact absurd h1.length_le (by decide)
  · have hdec : ∀ i, i < bjson.length → 0 < i → ¬ bjson.drop i <+: bbb := by decide
    exact hdec i hl h0 htd

/-- Replacing the fence by the empty string in `s` followed by one closing
fence yields exactly `s`, whenever `s` itself contains no fence (the final
occurrence may overlap trailing backticks of `s`). -/
theorem bbb_replace_tail (s : List Char) (hs : ¬ bbb <:+: s) :
    ∀ f, s.length + 3 ≤ f → pyReplaceF bbb [] f (s ++ bbb) = s := by
  induction s with
  | nil =>
    intro f hf
    obtain ⟨f1, rfl⟩ : ∃ f1, f = f1 + 1 := ⟨f - 1, by omega⟩
    rw [show ([] : List Char) ++ bbb = bbb ++ [] from by simp]
    rw [pyReplaceF_consume _ _ _ (by decide) f1]
    cases f1 <;> rfl
  | cons c tl ih =>
    intro f hf
    obtain ⟨f1, rfl⟩ : ∃ f1, f = f1 + 1 := ⟨f - 1, by omega⟩
    by_cases hpre : bbb.isPrefixOf ((c :: tl) ++ bbb) = true
    · have hpre2 : bbb <+: (c :: tl) ++ bbb := List.isPrefixOf_iff_prefix.mp hpre
      have hlen : (c :: tl).length ≤ 2 := by
        by_contra hgt
        push_neg at hgt
        have h3 : bbb <+: c :: tl :=
          List.prefix_of_prefix_length_le hpre2 (List.prefix_append _ _)
            (by rw [show bbb.length = 3 from rfl]; simp at hgt ⊢; omega)
        exact hs h3.isInfix
      rcases tl with _ | ⟨d, tl2⟩
      · have hc : Char.ofNat 96 = c := by
          rw [show bbb = Char.ofNat 96 :: (("``").toList) from rfl] at hpre2
          rw [List.cons_append, List.cons_prefix_cons] at hpre2
          exact hpre2.1
        subst hc
        rw [show (Char.ofNat 96 :: ([] : List Char)) ++ bbb =
          bbb ++ [Char.ofNat 96] from by decide]
        rw [pyReplaceF_consume _ _ _ (by decide) f1]
        rw [pyReplaceF_no_occurrence _ _ f1 _ (by decide)]
        rfl
      · rcases tl2 with _ | ⟨e, tl3⟩
        · have hc : Char.ofNat 96 = c ∧ Char.ofNat 96 = d := by
            rw [show bbb = Char.ofNat 96 :: (Char.ofNat 96 :: (("`").toList)) from rfl]
              at hpre2
            rw [List.cons_append, List.cons_prefix_cons, List.cons_append,
              List.cons_prefix_cons] at hpre2
            exact ⟨hpre2.1, hpre2.2.1⟩
          obtain ⟨hc1, hc2⟩ := hc
          subst hc1; subst hc2
          rw [show (Char.ofNat 96 :: (Char.ofNat 96 :: ([] : List Char))) ++ bbb =
            bbb ++ [Char.ofNat 96, Char.ofNat 96] from by decide]
          rw [pyReplaceF_consume _ _ _ (by decide) f1]
          rw [pyReplaceF_no_occurrence _ _ f1 _ (by decide)]
          rfl
        · exfalso
          simp at hlen
    · have hb : bbb.isPrefixOf ((c :: tl) ++ bbb) = false := Bool.eq_false_iff.mpr hpre
      rw [List.cons_append] at hb
      have hcs : ¬ bbb <:+: tl := fun hx => hs (List.infix_cons hx)
      have hf1 : tl.length + 3 ≤ f1 := by
        simp only [List.length_cons] at hf
        omega
      rw [List.cons_append]
      simp [pyReplaceF, hb, ih hcs f1 hf1]

/-- Stripping the whitespace around a fenced block leaves exactly the
block (its first and last characters are backticks, not whitespace). -/
theorem pyStrip_fenced (ws1 ws2 s : List Char)
    (h1 : ∀ c ∈ ws1, isSpaceB c = true) (h2 : ∀ c ∈ ws2, isSpaceB c = true) :
    pyStrip (ws1 ++ (bjson ++ s ++ bbb) ++ ws2) = bjson ++ s ++ bbb := by
  unfold pyStrip
  rw [show ws1 ++ (bjson ++ s ++ bbb) ++ ws2 = ws1 ++ ((bjson ++ s ++ bbb) ++ ws2) from
    by simp [List.append_assoc]]
  rw [List.dropWhile_append_of_pos h1]
  have hhead : ((bjson ++ s ++ bbb) ++ ws2).dropWhile isSpaceB =
      (bjson ++ s ++ bbb) ++ ws2 := by
    rw [show bjson = Char.ofNat 96 :: (("``json").toList) from rfl]
    rw [List.cons_append, List.cons_append, List.cons_append]
    rw [List.dropWhile_cons]
    simp [show isSpaceB (Char.ofNat 96) = false from by decide]
  rw [hhead, List.reverse_append]
  rw [List.dropWhile_append_of_pos (by
    intro c hc
    exact h2 c (List.mem_reverse.mp hc))]
  have hrev : (bjson ++ s ++ bbb).reverse =
      Char.ofNat 96 :: (("``").toList ++ (s.reverse ++ bjson.reverse)) := by
    rw [List.reverse_append, List.reverse_append]
    rw [show bbb.reverse = Char.ofNat 96 :: (("``").toList) from by decide]
    simp [List.append_assoc]
  rw [hrev, List.dropWhile_cons]
  simp only [show isSpaceB (Char.ofNat 96) = false from by decide, Bool.false_eq_true,
    if_false]
  rw [← hrev, List.reverse_reverse]

/-- The full fence-stripping identity behind claim C2: for a response of
the shape whitespace, opening fence with `json` tag, `s`, closing fence,
whitespace - where `s` contains no fence - line 221 recovers exactly `s`. -/
theorem fenceStrip_fenced (ws1 ws2 s : List Char)
    (h1 : ∀ c ∈ ws1, isSpaceB c = true) (h2 : ∀ c ∈ ws2, isSpaceB c = true)
    (hs : ¬ bbb <:+: s) :
    fenceStrip (ws1 ++ (bjson ++ s ++ bbb) ++ ws2) = s := by
  unfold fenceStrip
  rw [pyStrip_fenced ws1 ws2 s h1 h2]
  have hstep1 : pyReplace bjson [] (bjson ++ s ++ bbb) = s ++ bbb := by
    unfold pyReplace
    rw [show bjson ++ s ++ bbb = bjson ++ (s ++ bbb) from by simp [List.append_assoc]]
    have hlen : (bjson ++ (s ++ bbb)).length = (s ++ bbb).length + 7 := by
      rw [List.length_append, show bjson.length = 7 from rfl]
      omega
    rw [hlen, pyReplaceF_consume _ _ _ (by decide) ((s ++ bbb).length + 6)]
    rw [pyReplaceF_no_occurrence _ _ _ _ (bjson_not_infix_tail s hs)]
    rfl
  rw [hstep1]
  unfold pyReplace
  exact bbb_replace_tail s hs (s ++ bbb).length
    (by rw [List.length_append, show bbb.length = 3 from rfl])

/-- C2: Response-JSON validation parses a JSON-wrapped reply correctly: for
every response text of the form whitespace + `` ```json `` + `s` +
`` ``` `` + whitespace, where `s` is valid JSON containing no `` ``` ``,
the parsed alerts value equals the value denoted by `s`; and when that
value is the empty list, both the rendered report and the e-mail body state
that all SKUs are operating within normal sales velocity. -/
theorem C2_response_json (ws1 ws2 s : List Char) (v : Json)
    (secrets : List (List Char × List Char))
    (data business recipient : List Char) (aT sT : Nat) (warn checked clicked : Bool)
    (h1 : ∀ c ∈ ws1, isSpaceB c = true) (h2 : ∀ c ∈ ws2, isSpaceB c = true)
    (hs : ¬ bbb <:+: s) (hv : json_loads s = some v) :
    json_loads (fenceStrip (ws1 ++ (bjson ++ s ++ bbb) ++ ws2)) = some v
    ∧ (v = Json.jarr [] →
        noWarnMsg ∈ (analyzeAction secrets (ws1 ++ (bjson ++ s ++ bbb) ++ ws2)
            data business recipient aT sT warn checked clicked).shown
        ∧ (analyzeAction secrets (ws1 ++ (bjson ++ s ++ bbb) ++ ws2)
            data business recipient aT sT warn checked clicked).emailBody =
          some (emailGreeting ++ noWarnMsg ++ emailSignoff)
        ∧ noWarnMsg <:+: emailGreeting ++ noWarnMsg ++ emailSignoff) := by
  have hfs : fenceStrip (ws1 ++ (bjson ++ s ++ bbb) ++ ws2) = s :=
    fenceStrip_fenced ws1 ws2 s h1 h2 hs
  constructor
  · rw [hfs]; exact hv
  · intro hval
    subst hval
    unfold analyzeAction
    rw [hfs, hv]
    simp only [afterParse]
    rw [show renderPhase aT sT (Json.jarr []) =
      some ([noWarnMsg], emailGreeting ++ noWarnMsg) from rfl]
    cases h : autoSendValue recipient checked <;>
      cases hse : lookupSecret secrets senderEmailKey <;>
      cases clicked <;>
      simp [afterRender, h, hse]

/-- Witness for C2 at a concrete input: the response
`" ```json[]``` \n"` parses to the empty alert list. -/
theorem C2_response_json_witness :
    json_loads (fenceStrip (([' ']) ++ (bjson ++ (("[]").toList) ++ bbb) ++ (['\n']))) =
      some (Json.jarr []) :=
  (C2_response_json [' '] ['\n'] (("[]").toList) (Json.jarr [])
    [(senderEmailKey, ("me@gmail.com").toList)] [] []
    (("a@b.c").toList) 25 25 false true false
    (by decide) (by decide) (by decide) rfl).1

/-- C3: a model response whose fence-stripped text is not valid JSON takes
the `json.JSONDecodeError` handler: the user is shown the error message
together with the raw response text, no e-mail body is built and no e-mail
is attempted, and the model was called exactly once (the code contains a
single `generate_content` call and no retry). -/
theorem C3_malformed_json (secrets : List (List Char × List Char))
    (r data business recipient : List Char) (aT sT : Nat)
    (warn checked clicked : Bool)
    (hp : json_loads (fenceStrip r) = none) :
    analyzeAction secrets r data business recipient aT sT warn checked clicked =
      ⟨1, [successMsg, reportHdr, jsonErrMsg, r], none, none, false⟩ := by
  unfold analyzeAction
  rw [hp]
  rfl

/-- Witness for C3 at a concrete input: the response `"hello"` is not
valid JSON after stripping. -/
theorem C3_malformed_json_witness :
    analyzeAction [] (("hello").toList) [] [] [] 25 25 false false false =
      ⟨1, [successMsg, reportHdr, jsonErrMsg, ("hello").toList], none, none, false⟩ :=
  C3_malformed_json [] (("hello").toList) [] [] [] 25 25 false false false rfl

/-! ### Rendering lemmas (claims C5, C9) -/

/-- The card of an alert whose keys are all present. -/
def cardOf (aT sT : Nat) (a : Json) : List (List Char) :=
  screenLines aT sT (jGetD a typeKey) (jGetD a skuKey) (jGetD a locationKey)
    (jGetD a todayKey) (jGetD a avgKey) (jGetD a pctKey) (jGetD a causeKey)

/-- The e-mail block of an alert whose keys are all present. -/
def chunkOf (aT sT : Nat) (a : Json) : List Char :=
  mailChunk aT sT (jGetD a typeKey) (jGetD a skuKey) (jGetD a locationKey)
    (jGetD a todayKey) (jGetD a avgKey) (jGetD a pctKey) (jGetD a causeKey)

/-- One loop iteration on a well-formed alert renders its card and e-mail
block. -/
theorem renderAlert_hasKeys (aT sT : Nat) (a : Json) (hk : hasKeys a = true) :
    renderAlert aT sT a = some (cardOf aT sT a, chunkOf aT sT a) := by
  unfold hasKeys at hk
  simp only [Bool.and_eq_true, Option.isSome_iff_exists] at hk
  obtain ⟨⟨⟨⟨⟨⟨⟨t, ht⟩, sku, hsku⟩, loc, hloc⟩, ts, hts⟩, avg, havg⟩, cp, hcp⟩, cz, hcz⟩ := hk
  unfold renderAlert cardOf chunkOf jGetD
  rw [ht, hsku, hloc, hts, havg, hcp, hcz]
  rfl

/-- The loop over a list of well-formed alerts renders exactly one card
and one e-mail block per alert, in order. -/
theorem renderAlerts_hasKeys (aT sT : Nat) (alerts : List Json)
    (h : ∀ a ∈ alerts, hasKeys a = true) :
    renderAlerts aT sT alerts =
      some ((alerts.map (cardOf aT sT)).foldr (· ++ ·) [],
            (alerts.map (chunkOf aT sT)).foldr (· ++ ·) []) := by
  induction alerts with
  | nil => rfl
  | cons a rest ih =>
    have ha := h a (List.mem_cons_self _ _)
    have hrest := ih (fun b hb => h b (List.mem_cons_of_mem _ hb))
    unfold renderAlerts
    rw [renderAlert_hasKeys aT sT a ha, hrest]
    rfl

/-- C5: for every parsed alert list whose members carry the seven schema
keys, the loop renders exactly one card per alert and appends exactly one
e-mail block per alert, in order, and each card/block shows that alert's
type, sku, location, today_sales, avg_sales, change_pct and cause
values. -/
theorem C5_well_formed_alerts (aT sT : Nat) (alerts : List Json)
    (h : ∀ a ∈ alerts, hasKeys a = true) :
    renderAlerts aT sT alerts =
      some ((alerts.map (cardOf aT sT)).foldr (· ++ ·) [],
            (alerts.map (chunkOf aT sT)).foldr (· ++ ·) [])
    ∧ (alerts.map (cardOf aT sT)).length = alerts.length
    ∧ (alerts.map (chunkOf aT sT)).length = alerts.length
    ∧ ∀ a ∈ alerts,
        cardOf aT sT a =
          [hrLine,
           (if isSpikeType (jGetD a typeKey) then spikeHdrScreen aT else slumpHdrScreen sT),
           skuLine (jGetD a skuKey), locLine (jGetD a locationKey),
           todayLine (jGetD a todayKey), avgLine (jGetD a avgKey),
           changeLine (jGetD a pctKey), causeLine (jGetD a causeKey),
           dataForLine (jGetD a skuKey)]
        ∧ chunkOf aT sT a =
          (if isSpikeType (jGetD a typeKey) then spikeHdrMail aT else slumpHdrMail sT)
            ++ mailSku (jGetD a skuKey) ++ mailLoc (jGetD a locationKey)
            ++ mailToday (jGetD a todayKey) ++ mailAvg (jGetD a avgKey)
            ++ mailChange (jGetD a pctKey) ++ mailCause (jGetD a causeKey) :=
  ⟨renderAlerts_hasKeys aT sT alerts h, by simp, by simp, fun a _ => ⟨rfl, rfl⟩⟩

/-- Witness for C5 at a concrete one-alert list. -/
theorem C5_well_formed_alerts_witness :
    renderAlerts 25 25
        [Json.jobj [(typeKey, Json.jstr (("spike").toList)),
                    (skuKey, Json.jstr (("COF-001").toList)),
                    (locationKey, Json.jstr (("Hyd").toList)),
                    (todayKey, Json.jnum (("12").toList)),
                    (avgKey, Json.jnum (("5").toList)),
                    (pctKey, Json.jnum (("140").toList)),
                    (causeKey, Json.jstr (("Promo").toList))]] =
      some (([Json.jobj [(typeKey, Json.jstr (("spike").toList)),
                    (skuKey, Json.jstr (("COF-001").toList)),
                    (locationKey, Json.jstr (("Hyd").toList)),
                    (todayKey, Json.jnum (("12").toList)),
                    (avgKey, Json.jnum (("5").toList)),
                    (pctKey, Json.jnum (("140").toList)),
                    (causeKey, Json.jstr (("Promo").toList))]].map (cardOf 25 25)).foldr
              (· ++ ·) [],
            ([Json.jobj [(typeKey, Json.jstr (("spike").toList)),
                    (skuKey, Json.jstr (("COF-001").toList)),
                    (locationKey, Json.jstr (("Hyd").toList)),
                    (todayKey, Json.jnum (("12").toList)),
                    (avgKey, Json.jnum (("5").toList)),
                    (pctKey, Json.jnum (("140").toList)),
                    (causeKey, Json.jstr (("Promo").toList))]].map (chunkOf 25 25)).foldr
              (· ++ ·) []) :=
  (C5_well_formed_alerts 25 25 _ (by decide)).1

/-- C9: an alert with all keys present is rendered as a spike warning
exactly when its `type` value is the JSON string `"spike"`; every other
`type` value takes the slump branch, both on screen (the card's second
line) and in the e-mail block (its leading header). -/
theorem C9_type_branch (aT sT : Nat) (a t : Json)
    (hk : hasKeys a = true) (ht : pyIndex a typeKey = some t) :
    ∃ ls ch, renderAlert aT sT a = some (ls, ch)
      ∧ ls.get? 1 = some (if isSpikeType t then spikeHdrScreen aT else slumpHdrScreen sT)
      ∧ ch = (if isSpikeType t then spikeHdrMail aT else slumpHdrMail sT)
          ++ (mailSku (jGetD a skuKey) ++ (mailLoc (jGetD a locationKey)
          ++ (mailToday (jGetD a todayKey) ++ (mailAvg (jGetD a avgKey)
          ++ (mailChange (jGetD a pctKey) ++ mailCause (jGetD a causeKey))))))
      ∧ (isSpikeType t = true ↔ t = Json.jstr (("spike").toList)) := by
  have hget : jGetD a typeKey = t := by unfold jGetD; rw [ht]; rfl
  have hspike : isSpikeType t = true ↔ t = Json.jstr (("spike").toList) := by
    cases t <;> simp [isSpikeType]
  refine ⟨cardOf aT sT a, chunkOf aT sT a, renderAlert_hasKeys aT sT a hk, ?_, ?_, hspike⟩
  · simp [cardOf, screenLines, hget]
  · simp [chunkOf, mailChunk, hget, List.append_assoc]

/-- Witness for C9 at a concrete alert whose `type` is the number `7`
(neither `"spike"` nor `"slump"`): it takes the slump branch. -/
theorem C9_type_branch_witness :
    ∃ ls ch, renderAlert 30 20
        (Json.jobj [(typeKey, Json.jnum (("7").toList)),
                    (skuKey, Json.jstr (("TEA-002").toList)),
                    (locationKey, Json.jstr (("Pune").toList)),
                    (todayKey, Json.jnum (("3").toList)),
                    (avgKey, Json.jnum (("9").toList)),
                    (pctKey, Json.jnum (("-66").toList)),
                    (causeKey, Json.jstr (("Rain").toList))]) = some (ls, ch)
      ∧ ls.get? 1 = some (if isSpikeType (Json.jnum (("7").toList))
            then spikeHdrScreen 30 else slumpHdrScreen 20)
      ∧ ch = (if isSpikeType (Json.jnum (("7").toList))
            then spikeHdrMail 30 else slumpHdrMail 20)
          ++ (mailSku (jGetD (Json.jobj [(typeKey, Json.jnum (("7").toList)),
                    (skuKey, Json.jstr (("TEA-002").toList)),
                    (locationKey, Json.jstr (("Pune").toList)),
                    (todayKey, Json.jnum (("3").toList)),
                    (avgKey, Json.jnum (("9").toList)),
                    (pctKey, Json.jnum (("-66").toList)),
                    (causeKey, Json.jstr (("Rain").toList))]) skuKey)
          ++ (mailLoc (jGetD (Json.jobj [(typeKey, Json.jnum (("7").toList)),
                    (skuKey, Json.jstr (("TEA-002").toList)),
                    (locationKey, Json.jstr (("Pune").toList)),
                    (todayKey, Json.jnum (("3").toList)),
                    (avgKey, Json.jnum (("9").toList)),
                    (pctKey, Json.jnum (("-66").toList)),
                    (causeKey, Json.jstr (("Rain").toList))]) locationKey)
          ++ (mailToday (jGetD (Json.jobj [(typeKey, Json.jnum (("7").toList)),
                    (skuKey, Json.jstr (("TEA-002").toList)),
                    (locationKey, Json.jstr (("Pune").toList)),
                    (todayKey, Json.jnum (("3").toList)),
                    (avgKey, Json.jnum (("9").toList)),
                    (pctKey, Json.jnum (("-66").toList)),
                    (causeKey, Json.jstr (("Rain").toList))]) todayKey)
          ++ (mailAvg (jGetD (Json.jobj [(typeKey, Json.jnum (("7").toList)),
                    (skuKey, Json.jstr (("TEA-002").toList)),
                    (locationKey, Json.jstr (("Pune").toList)),
                    (todayKey, Json.jnum (("3").toList)),
                    (avgKey, Json.jnum (("9").toList)),
                    (pctKey, Json.jnum (("-66").toList)),
                    (causeKey, Json.jstr (("Rain").toList))]) avgKey)
          ++ (mailChange (jGetD (Json.jobj [(typeKey, Json.jnum (("7").toList)),
                    (skuKey, Json.jstr (("TEA-002").toList)),
                    (locationKey, Json.jstr (("Pune").toList)),
                    (todayKey, Json.jnum (("3").toList)),
                    (avgKey, Json.jnum (("9").toList)),
                    (pctKey, Json.jnum (("-66").toList)),
                    (causeKey, Json.jstr (("Rain").toList))]) pctKey)
          ++ mailCause (jGetD (Json.jobj [(typeKey, Json.jnum (("7").toList)),
                    (skuKey, Json.jstr (("TEA-002").toList)),
                    (locationKey, Json.jstr (("Pune").toList)),
                    (todayKey, Json.jnum (("3").toList)),
                    (avgKey, Json.jnum (("9").toList)),
                    (pctKey, Json.jnum (("-66").toList)),
                    (causeKey, Json.jstr (("Rain").toList))]) causeKey))))))
      ∧ (isSpikeType (Json.jnum (("7").toList)) = true ↔
          Json.jnum (("7").toList) = Json.jstr (("spike").toList)) :=
  C9_type_branch 30 20 _ (Json.jnum (("7").toList)) (by decide) rfl

/-- Counterexample to C4 as frozen, in two scenarios.  First: the response
`` ```json[{}]``` `` parses successfully (to the one-element list holding
an empty object), the auto-send checkbox is on with a non-empty recipient
and `SENDER_EMAIL` configured, and yet `send_email` is never invoked - the
alert loop raises `KeyError` on the missing `type` key, which the line-300
handler catches before the autonomous-send block is reached.  Second: the
response `` ```json[]``` `` parses *and* renders successfully and auto-send
is on, but `SENDER_EMAIL` is absent from secrets, so the spinner f-string
at line 268 raises `KeyError` (caught at line 300) before `send_email` can
run. -/
theorem C4_counterexample :
    (json_loads (fenceStrip (("```json[\x7b\x7d]```").toList))).isSome = true
    ∧ autoSendValue (("a@b.c").toList) true = true
    ∧ (analyzeAction [(senderEmailKey, ("me@gmail.com").toList),
          (senderPasswordKey, ("hunter2").toList)]
        (("```json[\x7b\x7d]```").toList) [] [] (("a@b.c").toList)
        25 25 false true false).emailAttempt = none
    ∧ (json_loads (fenceStrip (("```json[]```").toList))).isSome = true
    ∧ (analyzeAction [] (("```json[]```").toList) [] [] (("a@b.c").toList)
        25 25 false true false).emailAttempt = none :=
  ⟨rfl, rfl, rfl, rfl, rfl⟩

/-- C4 (amended): after a successful parse of the model response, a render
phase that does not raise, *and with `SENDER_EMAIL` configured in secrets*
(otherwise the pre-send spinner f-string at line 268/282 itself raises and
the alert-processing handler swallows the error before `send_email` can
run), `send_email` is invoked immediately if and only if the auto-send
checkbox is checked (possible only with a non-empty recipient:
`autoSendValue [] checked = false`); otherwise the report is rendered with
a review button and no e-mail is sent until that button is clicked.  When
auto-send is on the e-mail is attempted regardless of whether the parsed
alert list is empty (the hypotheses hold for `v = jarr []` with
`ls = [noWarnMsg]`).  With `SENDER_EMAIL` absent no e-mail is ever
attempted. -/
theorem C4_amended (secrets : List (List Char × List Char))
    (r data business recipient : List Char) (aT sT : Nat)
    (warn checked clicked : Bool) (v : Json) (ls : List (List Char)) (bodyCore : List Char)
    (hp : json_loads (fenceStrip r) = some v)
    (hr : renderPhase aT sT v = some (ls, bodyCore)) :
    (∀ se, lookupSecret secrets senderEmailKey = some se →
      (autoSendValue recipient checked = true →
        (analyzeAction secrets r data business recipient aT sT warn checked clicked).emailAttempt
          = some (recipient, subject_clean aT warn, bodyCore ++ emailSignoff)
        ∧ (analyzeAction secrets r data business recipient aT sT warn checked
            clicked).reviewOffered = false)
      ∧ (autoSendValue recipient checked = false →
          (analyzeAction secrets r data business recipient aT sT warn checked
            clicked).reviewOffered = true
          ∧ readyLine recipient ∈
              (analyzeAction secrets r data business recipient aT sT warn checked clicked).shown
          ∧ (clicked = false →
              (analyzeAction secrets r data business recipient aT sT warn checked
                clicked).emailAttempt = none)
          ∧ (clicked = true →
              (analyzeAction secrets r data business recipient aT sT warn checked
                clicked).emailAttempt
                = some (recipient, subject_clean aT warn, bodyCore ++ emailSignoff))))
    ∧ (lookupSecret secrets senderEmailKey = none →
        (analyzeAction secrets r data business recipient aT sT warn checked
          clicked).emailAttempt = none)
    ∧ autoSendValue [] checked = false := by
  unfold analyzeAction
  rw [hp]
  simp only [afterParse]
  rw [hr]
  refine ⟨?_, ?_, rfl⟩
  · intro se hse
    constructor
    · intro hauto
      simp [afterRender, hauto, hse]
    · intro hauto
      refine ⟨?_, ?_, ?_, ?_⟩
      · cases clicked <;> simp [afterRender, hauto, hse]
      · cases clicked <;> simp [afterRender, hauto, hse]
      · intro hc; subst hc; simp [afterRender, hauto, hse]
      · intro hc; subst hc; simp [afterRender, hauto, hse]
  · intro hse
    cases hauto : autoSendValue recipient checked <;> cases clicked <;>
      simp [afterRender, hauto, hse]

/-- Witness for C4 (amended) at a concrete input: empty alert list,
`SENDER_EMAIL` configured, auto-send on - the e-mail is attempted
immediately. -/
theorem C4_amended_witness :
    (analyzeAction [(senderEmailKey, ("me@gmail.com").toList)]
        (("```json[]```").toList) [] [] (("a@b.c").toList)
        25 25 false true false).emailAttempt =
      some ((("a@b.c").toList), subject_clean 25 false,
        (emailGreeting ++ noWarnMsg) ++ emailSignoff) :=
  (((C4_amended [(senderEmailKey, ("me@gmail.com").toList)]
      (("```json[]```").toList) [] [] (("a@b.c").toList) 25 25 false true false
      (Json.jarr []) [noWarnMsg] (emailGreeting ++ noWarnMsg) rfl rfl).1
    (("me@gmail.com").toList) rfl).1 rfl).1

/-- C6: missing e-mail secrets and SMTP failures are caught inside
`send_email` and surfaced as return values, never escalated (the function
is total): a missing `SENDER_EMAIL` or `SENDER_PASSWORD` returns
`(False, "Email credentials not configured in secrets.")` without opening
any SMTP connection; an SMTP exception whose text contains gmail's
login-rejection marker returns `(False, "Email credentials failed.")`; any
other SMTP exception returns `False` with the error message. -/
theorem C6_email_errors (secrets : List (List Char × List Char))
    (recipient subject body e : List Char) :
    ((lookupSecret secrets senderEmailKey = none ∨
        lookupSecret secrets senderPasswordKey = none) →
      ∀ world, send_email secrets recipient subject body world =
        ⟨false, notConfiguredMsg, false, none, none⟩)
    ∧ (∀ se sp, lookupSecret secrets senderEmailKey = some se →
        lookupSecret secrets senderPasswordKey = some sp →
        (containsSub authFailMarker e = true →
          send_email secrets recipient subject body (SmtpWorld.raises e) =
            ⟨false, credFailedMsg, true, none, none⟩)
        ∧ (containsSub authFailMarker e = false →
          send_email secrets recipient subject body (SmtpWorld.raises e) =
            ⟨false, sendFailPre ++ e, true, none, none⟩)) := by
  constructor
  · intro hmiss world
    cases hse : lookupSecret secrets senderEmailKey with
    | none => simp [send_email, hse]
    | some se =>
      rcases hmiss with h | h
      · rw [hse] at h; exact absurd h (by simp)
      · simp [send_email, hse, h]
  · intro se sp h1 h2
    constructor <;> intro hc <;> simp [send_email, h1, h2, hc]

/-- Witness for C6 at a concrete input: empty secrets, delivery world. -/
theorem C6_email_errors_witness :
    send_email [] (("ops@x.co").toList) (("Subj").toList) (("Body").toList)
        SmtpWorld.delivered =
      ⟨false, notConfiguredMsg, false, none, none⟩ :=
  (C6_email_errors [] (("ops@x.co").toList) (("Subj").toList) (("Body").toList) []).1
    (Or.inl rfl) SmtpWorld.delivered

/-- C7: every successful `send_email` call connects to `smtp.gmail.com`
on port 587, upgrades with STARTTLS, logs in with the sender e-mail and
password from secrets, sends one plaintext message whose To header is
exactly the single recipient supplied, and returns
`(True, "Email sent successfully!")`. -/
theorem C7_email_success (secrets : List (List Char × List Char))
    (recipient subject body se sp : List Char)
    (h1 : lookupSecret secrets senderEmailKey = some se)
    (h2 : lookupSecret secrets senderPasswordKey = some sp) :
    send_email secrets recipient subject body SmtpWorld.delivered =
      ⟨true, sentOkMsg, true,
       some ⟨("smtp.gmail.com").toList, 587, true, se, sp⟩,
       some ⟨se, recipient, subject, body⟩⟩ := by
  simp [send_email, h1, h2]

/-- Witness for C7 at concrete secrets. -/
theorem C7_email_success_witness :
    send_email [(senderEmailKey, ("me@gmail.com").toList),
                (senderPasswordKey, ("hunter2").toList)]
        (("ops@x.co").toList) (("Subj").toList) (("Body").toList) SmtpWorld.delivered =
      ⟨true, sentOkMsg, true,
       some ⟨("smtp.gmail.com").toList, 587, true, ("me@gmail.com").toList,
         ("hunter2").toList⟩,
       some ⟨("me@gmail.com").toList, ("ops@x.co").toList, ("Subj").toList,
         ("Body").toList⟩⟩ :=
  C7_email_success _ _ _ _ _ _ rfl rfl

/-- C8: a file that pandas parses successfully gets a data preview and the
per-SKU chart expander (one chart per unique sku); a file that raises
during CSV parsing surfaces the "Error reading CSV file" message and
produces no preview, no prompt and no model call. -/
theorem C8_csv_flow (toStr : DataFrame → List Char) (parse : Except (List Char) DataFrame)
    (business : List Char) (aT sT : Nat) (warn clicked : Bool) :
    (∀ e, parse = Except.error e →
      csvAction toStr parse business aT sT warn clicked =
        ⟨[csvErrPre ++ e], none, false, [], none, 0⟩)
    ∧ (∀ df, parse = Except.ok df →
        (csvAction toStr parse business aT sT warn clicked).preview = some df
        ∧ (csvAction toStr parse business aT sT warn clicked).chartsOffered = true
        ∧ (csvAction toStr parse business aT sT warn clicked).chartSkus = uniqueSkus df
        ∧ (clicked = true →
            (csvAction toStr parse business aT sT warn clicked).promptBuilt =
              some (prompt (toStr df) business aT sT warn)
            ∧ (csvAction toStr parse business aT sT warn clicked).modelCalls = 1)
        ∧ (clicked = false →
            (csvAction toStr parse business aT sT warn clicked).promptBuilt = none
            ∧ (csvAction toStr parse business aT sT warn clicked).modelCalls = 0)) := by
  constructor
  · intro e he; subst he; rfl
  · intro df hdf; subst hdf
    refine ⟨rfl, rfl, rfl, ?_, ?_⟩ <;> intro hc <;> subst hc <;> exact ⟨rfl, rfl⟩

/-- Witness for C8 at a concrete failing parse. -/
theorem C8_csv_flow_witness :
    csvAction (fun _ => []) (Except.error (("bad header").toList)) [] 25 25 false true =
      ⟨[csvErrPre ++ (("bad header").toList)], none, false, [], none, 0⟩ :=
  (C8_csv_flow (fun _ => []) (Except.error (("bad header").toList)) [] 25 25 false true).1
    (("bad header").toList) rfl

/-- C10: `clear_form` modifies only the six named widget keys: it sets the
recipient and context to the empty string, both sliders to 25, the slump
checkbox to `False`, and the auto-send checkbox to `False` only when that
key already exists; every other session-state entry (such as the uploaded
file) is unchanged. -/
theorem C10_clear_form (st : SessionState) (k : List Char)
    (hk : k ≠ recipientKey ∧ k ≠ contextKey ∧ k ≠ alertSliderKey ∧ k ≠ slumpCheckboxKey
      ∧ k ≠ slumpSliderKey ∧ k ≠ autoCheckboxKey) :
    clear_form st k = st k
    ∧ clear_form st recipientKey = some (SVal.strv [])
    ∧ clear_form st contextKey = some (SVal.strv [])
    ∧ clear_form st alertSliderKey = some (SVal.intv 25)
    ∧ clear_form st slumpCheckboxKey = some (SVal.boolv false)
    ∧ clear_form st slumpSliderKey = some (SVal.intv 25)
    ∧ ((st autoCheckboxKey).isSome = true →
        clear_form st autoCheckboxKey = some (SVal.boolv false))
    ∧ (st autoCheckboxKey = none → clear_form st autoCheckboxKey = none) := by
  obtain ⟨h1, h2, h3, h4, h5, h6⟩ := hk
  have dA1 : autoCheckboxKey ≠ slumpSliderKey := by decide
  have dA2 : autoCheckboxKey ≠ slumpCheckboxKey := by decide
  have dA3 : autoCheckboxKey ≠ alertSliderKey := by decide
  have dA4 : autoCheckboxKey ≠ contextKey := by decide
  have dA5 : autoCheckboxKey ≠ recipientKey := by decide
  have dS1 : slumpSliderKey ≠ autoCheckboxKey := by decide
  have dC1 : slumpCheckboxKey ≠ autoCheckboxKey := by decide
  have dC2 : slumpCheckboxKey ≠ slumpSliderKey := by decide
  have dL1 : alertSliderKey ≠ autoCheckboxKey := by decide
  have dL2 : alertSliderKey ≠ slumpSliderKey := by decide
  have dL3 : alertSliderKey ≠ slumpCheckboxKey := by decide
  have dX1 : contextKey ≠ autoCheckboxKey := by decide
  have dX2 : contextKey ≠ slumpSliderKey := by decide
  have dX3 : contextKey ≠ slumpCheckboxKey := by decide
  have dX4 : contextKey ≠ alertSliderKey := by decide
  have dR1 : recipientKey ≠ autoCheckboxKey := by decide
  have dR2 : recipientKey ≠ slumpSliderKey := by decide
  have dR3 : recipientKey ≠ slumpCheckboxKey := by decide
  have dR4 : recipientKey ≠ alertSliderKey := by decide
  have dR5 : recipientKey ≠ contextKey := by decide
  cases hauto : (st autoCheckboxKey).isSome with
  | true =>
    refine ⟨?_, ?_, ?_, ?_, ?_, ?_, fun _ => ?_, fun hn => ?_⟩
    · simp [clear_form, setK, hauto, h1, h2, h3, h4, h5, h6, dA1, dA2, dA3, dA4, dA5]
    · simp [clear_form, setK, hauto, dA1, dA2, dA3, dA4, dA5, dR1, dR2, dR3, dR4, dR5]
    · simp [clear_form, setK, hauto, dA1, dA2, dA3, dA4, dA5, dX1, dX2, dX3, dX4]
    · simp [clear_form, setK, hauto, dA1, dA2, dA3, dA4, dA5, dL1, dL2, dL3]
    · simp [clear_form, setK, hauto, dA1, dA2, dA3, dA4, dA5, dC1, dC2]
    · simp [clear_form, setK, hauto, dA1, dA2, dA3, dA4, dA5, dS1]
    · simp [clear_form, setK, hauto, dA1, dA2, dA3, dA4, dA5]
    · rw [hn] at hauto; simp at hauto
  | false =>
    refine ⟨?_, ?_, ?_, ?_, ?_, ?_, fun ht => ?_, fun hn => ?_⟩
    · simp [clear_form, setK, hauto, h1, h2, h3, h4, h5, h6, dA1, dA2, dA3, dA4, dA5]
    · simp [clear_form, setK, hauto, dA1, dA2, dA3, dA4, dA5, dR1, dR2, dR3, dR4, dR5]
    · simp [clear_form, setK, hauto, dA1, dA2, dA3, dA4, dA5, dX1, dX2, dX3, dX4]
    · simp [clear_form, setK, hauto, dA1, dA2, dA3, dA4, dA5, dL1, dL2, dL3]
    · simp [clear_form, setK, hauto, dA1, dA2, dA3, dA4, dA5, dC1, dC2]
    · simp [clear_form, setK, hauto, dA1, dA2, dA3, dA4, dA5, dS1]
    · exact Bool.noConfusion ht
    · simp [clear_form, setK, hauto, dA1, dA2, dA3, dA4, dA5]
      exact hn

/-- Witness for C10: a session state holding only the uploaded file is
untouched on that key. -/
theorem C10_clear_form_witness :
    clear_form (fun k2 => if k2 = (("file_uploader").toList)
        then some (SVal.filev (("sales.csv").toList)) else none) (("file_uploader").toList) =
      (fun k2 => if k2 = (("file_uploader").toList)
        then some (SVal.filev (("sales.csv").toList)) else none) (("file_uploader").toList) :=
  (C10_clear_form _ (("file_uploader").toList) (by decide)).1

end DemandSpike
